import Mathlib

/-!
# DailySpend — verification of the budget calculator and rate coordinator

Shallow embedding of the core of the `dailyspend` repository:

* `compute` embeds the derived-calculation `useMemo` body of `src/App.jsx`
  (lines 180–215): parsing the balance, day counting, per-day flooring and
  the conversion branch.
* `shouldFetch` / `maybeFetchRate` embed the rate coordinator
  `maybeFetchRate` of `src/App.jsx` (lines 269–285).
* `listCurrencies` embeds the pure part of `listCurrencies` in
  `src/lib/fx.js` (the sort applied to the fetched catalogue).

JavaScript numbers are modelled as `ℚ` (the arithmetic the claims exercise
is exact), epoch-millisecond instants as `Int`.  Ambient effects are made
explicit parameters: `now` is the clock reading, `dateMs` is the external
`Date` collaborator giving the epoch instant of `paydate + "T23:59:59"`,
`fmt` is the external `formatMoney` collaborator, and the network result of
a fetch is threaded in as an `Option` value (`none` = the promise rejected).
-/

namespace DailySpend

/-- `RateRecord` from the spec's data model (§3): a cached exchange rate as
stored in `state.lastRate` by `App.jsx`. -/
structure RateRecord where
  value : ℚ
  provider : String
  timestamp : Int
  «from» : String
  «to» : String
  date : Option String
deriving DecidableEq, Repr

/-- The persisted `State` of `App.jsx` (`DEFAULTS` shape). -/
structure State where
  balance : String
  srcCurrency : String
  dstCurrency : String
  paydate : String
  useConversion : Bool
  provider : String
  apiKey : String
  lastRate : Option RateRecord
  cachedCurrencies : Option (List (String × String))
  lastPerDay : Option Int
deriving DecidableEq, Repr

/-- The ephemeral `Derived` display model: the record `out` built by the
`useMemo` body of `App.jsx` lines 180–215.  `perDay` is an integer because
both assignments to it in the source are `Math.floor` results. -/
structure Derived where
  perDay : Option Int
  daysLeft : Int
  amountDisplay : Option String
  convertedDisplay : Option String
  rateLine : String
  error : String
deriving DecidableEq, Repr

/-- The initial `out` record of the `useMemo` body (line 181). -/
def initialOut : Derived :=
  { perDay := none, daysLeft := 0, amountDisplay := none,
    convertedDisplay := none, rateLine := "", error := "" }

/-- `state.balance.replace(/,/g, '')` — strip every comma (line 182). -/
def stripCommas (s : String) : String :=
  String.mk (s.data.filter (fun c => c ≠ ','))

/-- Numeric value of a digit character. -/
def digToNat (c : Char) : Nat := c.toNat - 48

/-- Value of a digit string read left to right. -/
def digitsVal (l : List Char) : Nat :=
  l.foldl (fun a c => 10 * a + digToNat c) 0

/-- Value of the fractional digits of a decimal literal. -/
def fracVal (l : List Char) : ℚ :=
  (digitsVal l : ℚ) / ((10 : ℚ) ^ l.length)

/-- Parse an unsigned decimal literal `digits [. digits]` (at least one
digit overall, as JavaScript `Number` requires); `none` models `NaN`. -/
def parseDecimalCore (l : List Char) : Option ℚ :=
  let intPart := l.takeWhile Char.isDigit
  let rest := l.dropWhile Char.isDigit
  match rest with
  | [] => if intPart.isEmpty then none else some (digitsVal intPart : ℚ)
  | '.' :: frac =>
    if frac.all Char.isDigit then
      if intPart.isEmpty && frac.isEmpty then none
      else some ((digitsVal intPart : ℚ) + fracVal frac)
    else none
  | _ => none

/-- JavaScript `Number(s)` on the decimal strings the balance field can
hold: the empty string is `0`, an optional sign precedes the digits, and
anything non-numeric is `NaN`, modelled as `none` (line 182: a `NaN`
balance is falsy and triggers the neutral return). -/
def jsNumber (s : String) : Option ℚ :=
  match s.data with
  | [] => some 0
  | '-' :: rest => (parseDecimalCore rest).map (fun q => -q)
  | '+' :: rest => parseDecimalCore rest
  | l => parseDecimalCore l

/-- Left-pad a string with zeros to the given length. -/
def padZeros (s : String) (n : Nat) : String :=
  String.mk (List.replicate (n - s.length) '0') ++ s

/-- `value.toFixed(4)` (line 209) for the non-negative rate values the app
formats: round to four decimal places and render with exactly four
fractional digits. -/
def toFixed4 (q : ℚ) : String :=
  let n : Int := ⌊q * 10000 + 1 / 2⌋
  toString (n / 10000) ++ "." ++ padZeros (toString (n % 10000).toNat) 4

/-- One day in milliseconds (line 188). -/
def dayMs : Int := 24 * 60 * 60 * 1000

/-- One hour in milliseconds (line 275). -/
def hourMs : Int := 60 * 60 * 1000

/-- Lines 185–189: `Math.ceil((new Date(paydate + "T23:59:59") - now) /
day)`.  `dateMs` is the external `Date` collaborator mapping the paydate
string to the epoch instant of its local end-of-day. -/
def daysLeftOf (dateMs : String → Int) (now : Int) (st : State) : Int :=
  ⌈((dateMs st.paydate - now : Int) : ℚ) / (dayMs : ℚ)⌉

/-- Lines 200–201: the guard of the conversion branch.  Returns the cached
rate exactly when `useConversion` is set, the currencies differ, a
`lastRate` exists, and it is identity-matched to the current pair. -/
def usableRate (st : State) : Option RateRecord :=
  match st.lastRate with
  | none => none
  | some lr =>
    if st.useConversion = true ∧ st.srcCurrency ≠ st.dstCurrency ∧
        lr.«from» = st.srcCurrency ∧ lr.«to» = st.dstCurrency then
      some lr
    else none

/-- The derived-calculation `useMemo` body of `App.jsx` lines 180–215,
with the ambient clock (`now`, read by `new Date()` and `Date.now()`) and
the external `Date`-parsing and `formatMoney` collaborators passed
explicitly. -/
def compute (dateMs : String → Int) (fmt : ℚ → String → String)
    (now : Int) (st : State) : Derived :=
  match jsNumber (stripCommas st.balance) with
  | none => initialOut
  | some balance =>
    if balance = 0 ∨ st.paydate = "" then initialOut
    else
      let days := daysLeftOf dateMs now st
      if days ≤ 0 then { initialOut with error := "Choose a future payday." }
      else
        match usableRate st with
        | some lr =>
          let convertedAmount := balance * lr.value
          { perDay := some ⌊convertedAmount / (days : ℚ)⌋
            daysLeft := days
            amountDisplay := some (fmt balance st.srcCurrency)
            convertedDisplay := some (fmt convertedAmount st.dstCurrency)
            rateLine := "1 " ++ st.srcCurrency ++ " = " ++ toFixed4 lr.value
              ++ " " ++ st.dstCurrency
              ++ (if dayMs < now - lr.timestamp then " (cached)" else "")
            error := "" }
        | none =>
          { perDay := some ⌊balance / (days : ℚ)⌋
            daysLeft := days
            amountDisplay := some (fmt balance st.srcCurrency)
            convertedDisplay := none
            rateLine := ""
            error := "" }

/-- The guard chain of `maybeFetchRate` (`App.jsx` lines 270–277): `true`
exactly when the external `getRate` call is reached. -/
def shouldFetch (now : Int) (isOnline : Bool) (st : State) : Bool :=
  if isOnline = false then false
  else if ¬(st.useConversion = true ∧ st.srcCurrency ≠ st.dstCurrency) then false
  else
    match st.lastRate with
    | some lr =>
      if lr.«from» = st.srcCurrency ∧ lr.«to» = st.dstCurrency ∧
          now - lr.timestamp < hourMs then false
      else true
    | none => true

/-- `maybeFetchRate` of `App.jsx` lines 269–285 as a state transformer.
`fetchResult` is the outcome of the external `getRate` call (`none` = the
promise rejected, landing in the `catch` that only logs a warning); it is
consulted only when the guard chain lets the fetch happen.  On success the
new record is stored with `from`/`to` stamped from the current state
(line 281). -/
def maybeFetchRate (now : Int) (isOnline : Bool)
    (fetchResult : Option RateRecord) (st : State) : State :=
  if shouldFetch now isOnline st then
    match fetchResult with
    | some r =>
      { st with lastRate := some { r with «from» := st.srcCurrency, «to» := st.dstCurrency } }
    | none => st
  else st

/-- Code-unit comparison of two character lists: the order
`a.localeCompare(b)` induces on the ASCII currency codes and names the
catalogue holds. -/
def charListLe : List Char → List Char → Bool
  | [], _ => true
  | _ :: _, [] => false
  | a :: as, b :: bs =>
    if a.toNat = b.toNat then charListLe as bs
    else decide (a.toNat < b.toNat)

/-- String order backing the sort comparator. -/
def strLe (a b : String) : Bool := charListLe a.data b.data

/-- Order on catalogue entries by their first component — the currency
code, which is what `([a], [b]) => a.localeCompare(b)` in
`src/lib/fx.js` destructures out of each `[code, name]` entry. -/
def byCode (p q : String × String) : Prop := strLe p.1 q.1 = true

/-- Order on catalogue entries by their second component — the currency
name; written from the spec's words "sorted by name" to compare against
the source's comparator. -/
def byName (p q : String × String) : Prop := strLe p.2 q.2 = true

instance : DecidableRel byCode := fun p q => decEq (strLe p.1 q.1) true

instance : DecidableRel byName := fun p q => decEq (strLe p.2 q.2) true

/-- `listCurrencies` of `src/lib/fx.js`: `none` is the thrown network/parse
error path (`!r.ok` or rejected fetch — the function re-throws); on success
the entries of the fetched catalogue object are sorted with the comparator
`([a], [b]) => a.localeCompare(b)`. -/
def listCurrencies (resp : Option (List (String × String))) :
    Option (List (String × String)) :=
  match resp with
  | none => none
  | some entries => some (List.insertionSort byCode entries)

/-! ## Order facts for the catalogue comparator -/

theorem charListLe_total : ∀ as bs, charListLe as bs = true ∨ charListLe bs as = true := by
  intro as
  induction as with
  | nil => intro bs; exact Or.inl rfl
  | cons a as ih =>
    intro bs
    cases bs with
    | nil => exact Or.inr rfl
    | cons b bs =>
      simp only [charListLe]
      by_cases hab : a.toNat = b.toNat
      · rw [if_pos hab, if_pos hab.symm]
        exact ih bs
      · rw [if_neg hab, if_neg (Ne.symm hab)]
        rcases Nat.lt_or_ge a.toNat b.toNat with h | h
        · exact Or.inl (decide_eq_true h)
        · exact Or.inr (decide_eq_true (by omega))

theorem charListLe_trans :
    ∀ as bs cs, charListLe as bs = true → charListLe bs cs = true →
      charListLe as cs = true := by
  intro as
  induction as with
  | nil => intro bs cs _ _; rfl
  | cons a as ih =>
    intro bs cs h1 h2
    cases bs with
    | nil => exact absurd h1 (by simp [charListLe])
    | cons b bs =>
      cases cs with
      | nil => exact absurd h2 (by simp [charListLe])
      | cons c cs =>
        simp only [charListLe] at h1 h2 ⊢
        by_cases hab : a.toNat = b.toNat
        · rw [if_pos hab] at h1
          by_cases hbc : b.toNat = c.toNat
          · rw [if_pos hbc] at h2
            rw [if_pos (hab.trans hbc)]
            exact ih bs cs h1 h2
          · rw [if_neg hbc] at h2
            have hlt : b.toNat < c.toNat := of_decide_eq_true h2
            rw [if_neg (by omega)]
            exact decide_eq_true (by omega)
        · rw [if_neg hab] at h1
          have hlt1 : a.toNat < b.toNat := of_decide_eq_true h1
          by_cases hbc : b.toNat = c.toNat
          · rw [if_neg (by omega)]
            exact decide_eq_true (by omega)
          · rw [if_neg hbc] at h2
            have hlt2 : b.toNat < c.toNat := of_decide_eq_true h2
            rw [if_neg (by omega)]
            exact decide_eq_true (by omega)

instance : IsTotal (String × String) byCode where
  total p q := charListLe_total p.1.data q.1.data

instance : IsTrans (String × String) byCode where
  trans p q r h1 h2 := charListLe_trans p.1.data q.1.data r.1.data h1 h2

/-! ## Branch characterizations of `compute`

One lemma per control-flow branch of the `useMemo` body; the claim theorems
below instantiate them. -/

theorem compute_neutral (dateMs : String → Int) (fmt : ℚ → String → String)
    (now : Int) (st : State)
    (h : jsNumber (stripCommas st.balance) = none ∨
      jsNumber (stripCommas st.balance) = some 0 ∨ st.paydate = "") :
    compute dateMs fmt now st = initialOut := by
  rcases h with h | h | h
  · simp [compute, h]
  · simp [compute, h]
  · cases hj : jsNumber (stripCommas st.balance) with
    | none => simp [compute, hj]
    | some b => simp [compute, hj, h]

theorem compute_pastPayday (dateMs : String → Int) (fmt : ℚ → String → String)
    (now : Int) (st : State) (b : ℚ)
    (hb : jsNumber (stripCommas st.balance) = some b) (hb0 : b ≠ 0)
    (hpd : st.paydate ≠ "") (hd : daysLeftOf dateMs now st ≤ 0) :
    compute dateMs fmt now st =
      { initialOut with error := "Choose a future payday." } := by
  simp [compute, hb, hb0, hpd, hd]

theorem compute_noConv (dateMs : String → Int) (fmt : ℚ → String → String)
    (now : Int) (st : State) (b : ℚ)
    (hb : jsNumber (stripCommas st.balance) = some b) (hb0 : b ≠ 0)
    (hpd : st.paydate ≠ "") (hd : 0 < daysLeftOf dateMs now st)
    (hu : usableRate st = none) :
    compute dateMs fmt now st =
      { perDay := some ⌊b / (daysLeftOf dateMs now st : ℚ)⌋
        daysLeft := daysLeftOf dateMs now st
        amountDisplay := some (fmt b st.srcCurrency)
        convertedDisplay := none
        rateLine := ""
        error := "" } := by
  simp [compute, hb, hb0, hpd, not_le.mpr hd, hu]

theorem compute_conv (dateMs : String → Int) (fmt : ℚ → String → String)
    (now : Int) (st : State) (b : ℚ) (lr : RateRecord)
    (hb : jsNumber (stripCommas st.balance) = some b) (hb0 : b ≠ 0)
    (hpd : st.paydate ≠ "") (hd : 0 < daysLeftOf dateMs now st)
    (hu : usableRate st = some lr) :
    compute dateMs fmt now st =
      { perDay := some ⌊b * lr.value / (daysLeftOf dateMs now st : ℚ)⌋
        daysLeft := daysLeftOf dateMs now st
        amountDisplay := some (fmt b st.srcCurrency)
        convertedDisplay := some (fmt (b * lr.value) st.dstCurrency)
        rateLine := "1 " ++ st.srcCurrency ++ " = " ++ toFixed4 lr.value
          ++ " " ++ st.dstCurrency
          ++ (if dayMs < now - lr.timestamp then " (cached)" else "")
        error := "" } := by
  simp [compute, hb, hb0, hpd, not_le.mpr hd, hu]

/-! ## Claim theorems -/

/-- Claim C1: for every state with a positive parsed balance (grouping
separators stripped), a non-empty paydate whose end-of-day lies in the
future, and the conversion branch not applying, `compute` returns
`perDay = floor(balance / daysLeft)` with no error, and the floored
per-day value never exceeds `balance / daysLeft`. -/
theorem perDay_floor_bound (dateMs : String → Int) (fmt : ℚ → String → String)
    (now : Int) (st : State) (b : ℚ)
    (hb : jsNumber (stripCommas st.balance) = some b) (hbpos : 0 < b)
    (hpd : st.paydate ≠ "") (hd : 0 < daysLeftOf dateMs now st)
    (hu : usableRate st = none) :
    (compute dateMs fmt now st).perDay =
      some ⌊b / (daysLeftOf dateMs now st : ℚ)⌋ ∧
    (compute dateMs fmt now st).error = "" ∧
    ((⌊b / (daysLeftOf dateMs now st : ℚ)⌋ : ℚ) ≤
      b / (daysLeftOf dateMs now st : ℚ)) := by
  rw [compute_noConv dateMs fmt now st b hb hbpos.ne' hpd hd hu]
  exact ⟨rfl, rfl, Int.floor_le _⟩

/-- State for the claim C1 scenario: balance `"3000"`, source and display
currency both EUR, conversion off. -/
def w1State : State :=
  { balance := "3000", srcCurrency := "EUR", dstCurrency := "EUR",
    paydate := "2099-06-10", useConversion := false, provider := "frankfurter",
    apiKey := "", lastRate := none, cachedCurrencies := none, lastPerDay := none }

/-- Date collaborator for the claim C1 scenario: the payday's end-of-day is
ten days after the epoch used as `now`. -/
def w1Date : String → Int := fun _ => 864000000

/-- Formatting collaborator used by the concrete scenarios. -/
def w1Fmt : ℚ → String → String := fun _ _ => "fmt"

/-- Claim C1 witness: the scenario balance `"3000"`, payday 10 days away,
`useConversion = false` yields `perDay = 300` and no error. -/
theorem perDay_floor_bound_witness :
    (jsNumber (stripCommas w1State.balance) = some ((3000 : ℕ) : ℚ) ∧
      (0 : ℚ) < ((3000 : ℕ) : ℚ) ∧ w1State.paydate ≠ "" ∧
      0 < daysLeftOf w1Date 0 w1State ∧ usableRate w1State = none) ∧
    (compute w1Date w1Fmt 0 w1State).perDay = some 300 ∧
    (compute w1Date w1Fmt 0 w1State).error = "" := by
  have hb : jsNumber (stripCommas w1State.balance) = some ((3000 : ℕ) : ℚ) := rfl
  have hbpos : (0 : ℚ) < ((3000 : ℕ) : ℚ) := by norm_num
  have hpd : w1State.paydate ≠ "" := by decide
  have hdays : daysLeftOf w1Date 0 w1State = 10 := by
    norm_num [daysLeftOf, w1Date, w1State, dayMs]
  have hd : 0 < daysLeftOf w1Date 0 w1State := by rw [hdays]; norm_num
  have hu : usableRate w1State = none := rfl
  have h := perDay_floor_bound w1Date w1Fmt 0 w1State ((3000 : ℕ) : ℚ)
    hb hbpos hpd hd hu
  rw [hdays] at h
  refine ⟨⟨hb, hbpos, hpd, hd, hu⟩, ?_, h.2.1⟩
  rw [h.1]
  simp only [Option.some.injEq]
  norm_num

/-- Claim C2: with a positive parsed balance, a future payday,
`useConversion = true`, distinct currencies and an identity-matched
`lastRate`, `compute` floors the converted amount per day, displays the
converted amount in the destination currency, and renders the rate line
with the `" (cached)"` suffix exactly when the rate is older than 24
hours. -/
theorem conversion_perDay_rateLine (dateMs : String → Int)
    (fmt : ℚ → String → String) (now : Int) (st : State) (b : ℚ)
    (lr : RateRecord)
    (hb : jsNumber (stripCommas st.balance) = some b) (hbpos : 0 < b)
    (hpd : st.paydate ≠ "") (hd : 0 < daysLeftOf dateMs now st)
    (hlr : st.lastRate = some lr) (huse : st.useConversion = true)
    (hne : st.srcCurrency ≠ st.dstCurrency)
    (hfrom : lr.«from» = st.srcCurrency) (hto : lr.«to» = st.dstCurrency) :
    compute dateMs fmt now st =
      { perDay := some ⌊b * lr.value / (daysLeftOf dateMs now st : ℚ)⌋
        daysLeft := daysLeftOf dateMs now st
        amountDisplay := some (fmt b st.srcCurrency)
        convertedDisplay := some (fmt (b * lr.value) st.dstCurrency)
        rateLine := "1 " ++ st.srcCurrency ++ " = " ++ toFixed4 lr.value
          ++ " " ++ st.dstCurrency
          ++ (if dayMs < now - lr.timestamp then " (cached)" else "")
        error := "" } := by
  have hu : usableRate st = some lr := by
    simp [usableRate, hlr, huse, hne, hfrom, hto]
  exact compute_conv dateMs fmt now st b lr hb hbpos.ne' hpd hd hu

/-- Rate record for the claim C2 scenario: 1.1 EUR to USD, fetched two
hours before the `now` of the scenario. -/
def w2Rate : RateRecord :=
  { value := 11 / 10, provider := "frankfurter", timestamp := 999992800000,
    «from» := "EUR", «to» := "USD", date := none }

/-- State for the claim C2 scenario: balance `"2,200"`, EUR to USD
conversion enabled, cached rate `w2Rate`. -/
def w2State : State :=
  { balance := "2,200", srcCurrency := "EUR", dstCurrency := "USD",
    paydate := "2099-01-10", useConversion := true, provider := "frankfurter",
    apiKey := "", lastRate := some w2Rate, cachedCurrencies := none,
    lastPerDay := none }

/-- Date collaborator for the claim C2 scenario: payday end-of-day ten
days after the scenario's `now` of 1000000000000. -/
def w2Date : String → Int := fun _ => 1000864000000

/-- Claim C2 witness: balance `"2,200"`, rate 1.1 EUR to USD aged two
hours, ten days left gives `perDay = 242` and
`rateLine = "1 EUR = 1.1000 USD"` without the cached tag. -/
theorem conversion_perDay_rateLine_witness :
    (jsNumber (stripCommas w2State.balance) = some ((2200 : ℕ) : ℚ) ∧
      (0 : ℚ) < ((2200 : ℕ) : ℚ) ∧ w2State.paydate ≠ "" ∧
      0 < daysLeftOf w2Date 1000000000000 w2State ∧
      w2State.lastRate = some w2Rate ∧ w2State.useConversion = true ∧
      w2State.srcCurrency ≠ w2State.dstCurrency ∧
      w2Rate.«from» = w2State.srcCurrency ∧
      w2Rate.«to» = w2State.dstCurrency) ∧
    (compute w2Date w1Fmt 1000000000000 w2State).perDay = some 242 ∧
    (compute w2Date w1Fmt 1000000000000 w2State).rateLine =
      "1 EUR = 1.1000 USD" ∧
    (compute w2Date w1Fmt 1000000000000 w2State).error = "" := by
  have hb : jsNumber (stripCommas w2State.balance) = some ((2200 : ℕ) : ℚ) := rfl
  have hbpos : (0 : ℚ) < ((2200 : ℕ) : ℚ) := by norm_num
  have hpd : w2State.paydate ≠ "" := by decide
  have hdays : daysLeftOf w2Date 1000000000000 w2State = 10 := by
    norm_num [daysLeftOf, w2Date, w2State, dayMs]
  have hd : 0 < daysLeftOf w2Date 1000000000000 w2State := by
    rw [hdays]; norm_num
  have h := conversion_perDay_rateLine w2Date w1Fmt 1000000000000 w2State
    ((2200 : ℕ) : ℚ) w2Rate hb hbpos hpd hd rfl rfl (by decide) rfl rfl
  rw [hdays] at h
  have ht : toFixed4 ((11 : ℚ) / 10) = "1.1000" := by
    have hfl : (⌊(11 : ℚ) / 10 * 10000 + 1 / 2⌋ : Int) = 11000 := by norm_num
    simp only [toFixed4]
    rw [hfl]
    decide
  refine ⟨⟨hb, hbpos, hpd, hd, rfl, rfl, by decide, rfl, rfl⟩, ?_, ?_, ?_⟩
  · rw [h]
    simp only [Option.some.injEq]
    show (⌊((2200 : ℕ) : ℚ) * w2Rate.value / ((10 : Int) : ℚ)⌋ : Int) = 242
    rw [show w2Rate.value = (11 : ℚ) / 10 from rfl]
    norm_num
  · rw [h]
    show "1 " ++ w2State.srcCurrency ++ " = " ++ toFixed4 w2Rate.value ++ " " ++
        w2State.dstCurrency ++
        (if dayMs < 1000000000000 - w2Rate.timestamp then " (cached)" else "") =
      "1 EUR = 1.1000 USD"
    rw [show w2Rate.value = (11 : ℚ) / 10 from rfl, ht,
      if_neg (by norm_num [dayMs, w2Rate] :
        ¬ dayMs < 1000000000000 - w2Rate.timestamp)]
    decide
  · rw [h]

/-- Claim C3: with a positive parsed balance and a paydate whose local
end-of-day is now or in the past (`daysLeft ≤ 0`), `compute` reports
"Choose a future payday." with `perDay = null`; `daysLeft = 0` is an
error, never a valid same-day budget. -/
theorem past_payday_error (dateMs : String → Int) (fmt : ℚ → String → String)
    (now : Int) (st : State) (b : ℚ)
    (hb : jsNumber (stripCommas st.balance) = some b) (hbpos : 0 < b)
    (hpd : st.paydate ≠ "") (hd : daysLeftOf dateMs now st ≤ 0) :
    compute dateMs fmt now st =
      { perDay := none, daysLeft := 0, amountDisplay := none,
        convertedDisplay := none, rateLine := "",
        error := "Choose a future payday." } :=
  compute_pastPayday dateMs fmt now st b hb hbpos.ne' hpd hd

/-- State for the claim C3 scenario: balance `"1000"` and a payday whose
end-of-day coincides with `now`, so `daysLeft` is exactly 0. -/
def w3State : State :=
  { balance := "1000", srcCurrency := "EUR", dstCurrency := "USD",
    paydate := "2024-01-01", useConversion := false, provider := "frankfurter",
    apiKey := "", lastRate := none, cachedCurrencies := none, lastPerDay := none }

/-- Date collaborator for the claim C3 scenario: the payday's end-of-day
equals the scenario's `now` of 500. -/
def w3Date : String → Int := fun _ => 500

/-- Claim C3 witness: a payday whose end-of-day has just passed
(`daysLeft = 0`) produces the error and a null `perDay`. -/
theorem past_payday_error_witness :
    (jsNumber (stripCommas w3State.balance) = some ((1000 : ℕ) : ℚ) ∧
      (0 : ℚ) < ((1000 : ℕ) : ℚ) ∧ w3State.paydate ≠ "" ∧
      daysLeftOf w3Date 500 w3State ≤ 0) ∧
    (compute w3Date w1Fmt 500 w3State).error = "Choose a future payday." ∧
    (compute w3Date w1Fmt 500 w3State).perDay = none := by
  have hb : jsNumber (stripCommas w3State.balance) = some ((1000 : ℕ) : ℚ) := rfl
  have hbpos : (0 : ℚ) < ((1000 : ℕ) : ℚ) := by norm_num
  have hpd : w3State.paydate ≠ "" := by decide
  have hd : daysLeftOf w3Date 500 w3State ≤ 0 := by
    norm_num [daysLeftOf, w3Date, w3State, dayMs]
  have h := past_payday_error w3Date w1Fmt 500 w3State ((1000 : ℕ) : ℚ)
    hb hbpos hpd hd
  rw [h]
  exact ⟨⟨hb, hbpos, hpd, hd⟩, rfl, rfl⟩

/-- Claim C4: a `lastRate` whose `(from, to)` pair does not match the
current `(srcCurrency, dstCurrency)` is never used, whatever its
timestamp: the per-day budget comes from the source-currency balance and
`convertedDisplay` stays null. -/
theorem mismatched_rate_unused (dateMs : String → Int)
    (fmt : ℚ → String → String) (now : Int) (st : State) (b : ℚ)
    (lr : RateRecord)
    (hb : jsNumber (stripCommas st.balance) = some b) (hbpos : 0 < b)
    (hpd : st.paydate ≠ "") (hd : 0 < daysLeftOf dateMs now st)
    (hlr : st.lastRate = some lr)
    (hmm : lr.«from» ≠ st.srcCurrency ∨ lr.«to» ≠ st.dstCurrency) :
    (compute dateMs fmt now st).convertedDisplay = none ∧
    (compute dateMs fmt now st).perDay =
      some ⌊b / (daysLeftOf dateMs now st : ℚ)⌋ ∧
    (compute dateMs fmt now st).rateLine = "" := by
  have hu : usableRate st = none := by
    rcases hmm with h | h <;> simp [usableRate, hlr, h]
  rw [compute_noConv dateMs fmt now st b hb hbpos.ne' hpd hd hu]
  exact ⟨rfl, rfl, rfl⟩

/-- Rate record for the claim C4 scenario: a GBP-to-USD rate while the
state converts EUR to USD, so the identity check fails. -/
def w4Rate : RateRecord :=
  { value := 2, provider := "frankfurter", timestamp := 0,
    «from» := "GBP", «to» := "USD", date := none }

/-- State for the claim C4 scenario: EUR-to-USD conversion enabled but the
cached rate is for GBP-to-USD. -/
def w4State : State :=
  { balance := "900", srcCurrency := "EUR", dstCurrency := "USD",
    paydate := "2099-02-02", useConversion := true, provider := "frankfurter",
    apiKey := "", lastRate := some w4Rate, cachedCurrencies := none,
    lastPerDay := none }

/-- Date collaborator for the claim C4 scenario: three days left. -/
def w4Date : String → Int := fun _ => 259200000

/-- Claim C4 witness: with the mismatched GBP rate cached, the EUR balance
900 over 3 days gives `perDay = 300` from the source currency and no
converted display. -/
theorem mismatched_rate_unused_witness :
    (jsNumber (stripCommas w4State.balance) = some ((900 : ℕ) : ℚ) ∧
      (0 : ℚ) < ((900 : ℕ) : ℚ) ∧ w4State.paydate ≠ "" ∧
      0 < daysLeftOf w4Date 0 w4State ∧ w4State.lastRate = some w4Rate ∧
      (w4Rate.«from» ≠ w4State.srcCurrency ∨
        w4Rate.«to» ≠ w4State.dstCurrency)) ∧
    (compute w4Date w1Fmt 0 w4State).convertedDisplay = none ∧
    (compute w4Date w1Fmt 0 w4State).perDay = some 300 ∧
    (compute w4Date w1Fmt 0 w4State).rateLine = "" := by
  have hb : jsNumber (stripCommas w4State.balance) = some ((900 : ℕ) : ℚ) := rfl
  have hbpos : (0 : ℚ) < ((900 : ℕ) : ℚ) := by norm_num
  have hpd : w4State.paydate ≠ "" := by decide
  have hdays : daysLeftOf w4Date 0 w4State = 3 := by
    norm_num [daysLeftOf, w4Date, w4State, dayMs]
  have hd : 0 < daysLeftOf w4Date 0 w4State := by rw [hdays]; norm_num
  have hmm : w4Rate.«from» ≠ w4State.srcCurrency ∨
      w4Rate.«to» ≠ w4State.dstCurrency := Or.inl (by decide)
  have h := mismatched_rate_unused w4Date w1Fmt 0 w4State ((900 : ℕ) : ℚ)
    w4Rate hb hbpos hpd hd rfl hmm
  rw [hdays] at h
  refine ⟨⟨hb, hbpos, hpd, hd, rfl, hmm⟩, h.1, ?_, h.2.2⟩
  rw [h.2.1]
  simp only [Option.some.injEq]
  norm_num

/-- Claim C5: the coordinator never reaches the external rate fetch when
the app is offline, conversion is off, the currencies coincide, or an
identity-matched `lastRate` younger than one hour exists; in each case the
state is left unchanged. -/
theorem no_fetch_when_offline_needless_or_fresh (now : Int) (isOnline : Bool)
    (st : State)
    (h : isOnline = false ∨ st.useConversion = false ∨
      st.srcCurrency = st.dstCurrency ∨
      (∃ lr, st.lastRate = some lr ∧ lr.«from» = st.srcCurrency ∧
        lr.«to» = st.dstCurrency ∧ now - lr.timestamp < hourMs)) :
    shouldFetch now isOnline st = false ∧
    ∀ res, maybeFetchRate now isOnline res st = st := by
  have hsf : shouldFetch now isOnline st = false := by
    rcases h with h | h | h | ⟨lr, hlr, h1, h2, h3⟩
    · simp [shouldFetch, h]
    · cases isOnline <;> simp [shouldFetch, h]
    · cases isOnline <;> simp [shouldFetch, h]
    · cases isOnline <;> simp [shouldFetch, hlr, h1, h2, h3]
  exact ⟨hsf, fun res => by simp [maybeFetchRate, hsf]⟩

/-- State for the claim C5 scenario. -/
def w5State : State :=
  { balance := "50", srcCurrency := "EUR", dstCurrency := "USD",
    paydate := "2099-03-03", useConversion := true, provider := "frankfurter",
    apiKey := "", lastRate := none, cachedCurrencies := none, lastPerDay := none }

/-- Claim C5 witness: offline, the guard refuses the fetch and the state
is unchanged. -/
theorem no_fetch_when_offline_needless_or_fresh_witness :
    ((false : Bool) = false ∨ w5State.useConversion = false ∨
      w5State.srcCurrency = w5State.dstCurrency ∨
      (∃ lr, w5State.lastRate = some lr ∧ lr.«from» = w5State.srcCurrency ∧
        lr.«to» = w5State.dstCurrency ∧ (0 : Int) - lr.timestamp < hourMs)) ∧
    shouldFetch 0 false w5State = false ∧
    maybeFetchRate 0 false none w5State = w5State := by
  have h := no_fetch_when_offline_needless_or_fresh 0 false w5State
    (Or.inl rfl)
  exact ⟨Or.inl rfl, h.1, h.2 none⟩

/-- Claim C6: a failed fetch (`none` from the collaborator) leaves the
state — in particular `lastRate` — unchanged, the exception stopping in
the `catch`; a successful fetch replaces `lastRate` with the new record
stamped with the current currency pair, and only when the guard chain let
the fetch happen. -/
theorem fetch_failure_keeps_state (now : Int) (isOnline : Bool) (st : State)
    (r : RateRecord) :
    maybeFetchRate now isOnline none st = st ∧
    maybeFetchRate now isOnline (some r) st =
      (if shouldFetch now isOnline st then
        { st with
          lastRate := some { r with «from» := st.srcCurrency, «to» := st.dstCurrency } }
      else st) := by
  by_cases h : shouldFetch now isOnline st = true
  · simp [maybeFetchRate, h]
  · simp only [Bool.not_eq_true] at h
    simp [maybeFetchRate, h]

/-- Claim C7: a balance parsing to zero (including the absent, empty
balance) or an empty paydate yields the neutral derived model: null
`perDay`, zero `daysLeft` and an empty error — not an error state. -/
theorem incomplete_input_neutral (dateMs : String → Int)
    (fmt : ℚ → String → String) (now : Int) (st : State)
    (h : jsNumber (stripCommas st.balance) = some 0 ∨ st.paydate = "") :
    compute dateMs fmt now st =
      { perDay := none, daysLeft := 0, amountDisplay := none,
        convertedDisplay := none, rateLine := "", error := "" } := by
  rcases h with h | h
  · exact compute_neutral dateMs fmt now st (Or.inr (Or.inl h))
  · exact compute_neutral dateMs fmt now st (Or.inr (Or.inr h))

/-- State for the claim C7 scenario: no balance entered yet. -/
def w7State : State :=
  { balance := "", srcCurrency := "EUR", dstCurrency := "USD",
    paydate := "2099-04-04", useConversion := false, provider := "frankfurter",
    apiKey := "", lastRate := none, cachedCurrencies := none, lastPerDay := none }

/-- Claim C7 witness: the empty balance parses to zero and `compute`
returns the silent neutral state. -/
theorem incomplete_input_neutral_witness :
    (jsNumber (stripCommas w7State.balance) = some 0 ∨ w7State.paydate = "") ∧
    (compute w1Date w1Fmt 0 w7State).perDay = none ∧
    (compute w1Date w1Fmt 0 w7State).daysLeft = 0 ∧
    (compute w1Date w1Fmt 0 w7State).error = "" := by
  have h := incomplete_input_neutral w1Date w1Fmt 0 w7State (Or.inl rfl)
  rw [h]
  exact ⟨Or.inl rfl, rfl, rfl, rfl⟩

/-- State for the claim C8 refutation and witness. -/
def cexState : State :=
  { balance := "100", srcCurrency := "EUR", dstCurrency := "USD",
    paydate := "2025-01-01", useConversion := false, provider := "frankfurter",
    apiKey := "", lastRate := none, cachedCurrencies := none, lastPerDay := none }

/-- Date collaborator for the claim C8 refutation: the payday's end-of-day
is one day after epoch 0. -/
def cexDate : String → Int := fun _ => 86400000

/-- Formatting collaborator for the claim C8 refutation. -/
def cexFmt : ℚ → String → String := fun _ _ => ""

/-- Claim C8 counterexample: `compute` is not a function of the `State`
alone — the `useMemo` body reads the clock (`new Date()`, `Date.now()`),
so two calls with the identical `State` at two different instants return
different `Derived` values: before the payday's end-of-day the budget is
computed, a day later the same state yields the payday error. -/
theorem compute_clock_counterexample :
    compute cexDate cexFmt 0 cexState ≠
      compute cexDate cexFmt 86400000 cexState := by
  have hd1 : 0 < daysLeftOf cexDate 0 cexState := by
    norm_num [daysLeftOf, cexDate, cexState, dayMs]
  have hd2 : daysLeftOf cexDate 86400000 cexState ≤ 0 := by
    norm_num [daysLeftOf, cexDate, cexState, dayMs]
  have h1 := compute_noConv cexDate cexFmt 0 cexState ((100 : ℕ) : ℚ) rfl
    (by norm_num) (by decide) hd1 rfl
  have h2 := compute_pastPayday cexDate cexFmt 86400000 cexState
    ((100 : ℕ) : ℚ) rfl (by norm_num) (by decide) hd2
  intro heq
  rw [h1, h2] at heq
  exact absurd (congrArg Derived.error heq) (by decide)

/-- Claim C8 (amended): `compute` is deterministic in the `State` and the
ambient clock together — two calls with identical state and identical
clock reading yield identical `Derived` — and the embedding is a pure
function, all effects (clock, date parsing, formatting) being explicit
parameters. -/
theorem compute_deterministic (dateMs : String → Int)
    (fmt : ℚ → String → String) (now : Int) (st st' : State)
    (h : st = st') :
    compute dateMs fmt now st = compute dateMs fmt now st' := by
  rw [h]

/-- Claim C8 witness: determinism at a concrete state and instant. -/
theorem compute_deterministic_witness :
    cexState = cexState ∧
    compute cexDate cexFmt 0 cexState = compute cexDate cexFmt 0 cexState :=
  ⟨rfl, compute_deterministic cexDate cexFmt 0 cexState cexState rfl⟩

/-- Claim C9 counterexample: the catalogue is not sorted by name. The
comparator `([a], [b]) => a.localeCompare(b)` destructures the first
component of each `[code, name]` entry, so `listCurrencies` orders by
code: on the catalogue `{BBB: "Apple", AAA: "Zebra"}` it returns the
codes in order `AAA, BBB` although the names `Zebra, Apple` are in
reverse alphabetical order. -/
theorem listCurrencies_name_order_counterexample :
    listCurrencies (some [("BBB", "Apple"), ("AAA", "Zebra")]) =
      some [("AAA", "Zebra"), ("BBB", "Apple")] ∧
    ¬ List.Sorted byName [("AAA", "Zebra"), ("BBB", "Apple")] := by
  constructor
  · decide
  · decide

/-- Claim C9 (amended): `listCurrencies` returns the currency catalogue as
an ordered list of `(code, name)` pairs sorted by code (the first
component), a permutation of the fetched entries, and propagates the
network/parse failure when the provider is unreachable. -/
theorem listCurrencies_sorted_by_code (entries : List (String × String)) :
    listCurrencies none = none ∧
    listCurrencies (some entries) = some (List.insertionSort byCode entries) ∧
    List.Sorted byCode (List.insertionSort byCode entries) ∧
    (List.insertionSort byCode entries).Perm entries :=
  ⟨rfl, rfl, List.sorted_insertionSort byCode entries,
    List.perm_insertionSort byCode entries⟩

/-- Claim C10: the three outcomes of `compute` are mutually exclusive: a
non-empty error comes with a null `perDay`, zero `daysLeft`, no converted
display and an empty rate line; a non-null `perDay` comes with an empty
error and at least one day left.  Stated disjunctively: either the error
is empty or the neutral fields hold, and either `perDay` is null or the
computation succeeded with `daysLeft ≥ 1`. -/
theorem derived_outcomes_mutually_exclusive (dateMs : String → Int)
    (fmt : ℚ → String → String) (now : Int) (st : State) :
    ((compute dateMs fmt now st).error = "" ∨
      ((compute dateMs fmt now st).perDay = none ∧
       (compute dateMs fmt now st).daysLeft = 0 ∧
       (compute dateMs fmt now st).convertedDisplay = none ∧
       (compute dateMs fmt now st).rateLine = "")) ∧
    ((compute dateMs fmt now st).perDay = none ∨
      ((compute dateMs fmt now st).error = "" ∧
       1 ≤ (compute dateMs fmt now st).daysLeft)) := by
  rcases hj : jsNumber (stripCommas st.balance) with _ | b
  · rw [compute_neutral dateMs fmt now st (Or.inl hj)]
    exact ⟨Or.inl rfl, Or.inl rfl⟩
  · by_cases h0 : b = 0
    · rw [compute_neutral dateMs fmt now st (Or.inr (Or.inl (h0 ▸ hj)))]
      exact ⟨Or.inl rfl, Or.inl rfl⟩
    · by_cases hpd : st.paydate = ""
      · rw [compute_neutral dateMs fmt now st (Or.inr (Or.inr hpd))]
        exact ⟨Or.inl rfl, Or.inl rfl⟩
      · by_cases hd : daysLeftOf dateMs now st ≤ 0
        · rw [compute_pastPayday dateMs fmt now st b hj h0 hpd hd]
          exact ⟨Or.inr ⟨rfl, rfl, rfl, rfl⟩, Or.inl rfl⟩
        · have hd' : 0 < daysLeftOf dateMs now st := not_le.mp hd
          have h1 : (1 : Int) ≤ daysLeftOf dateMs now st := hd'
          rcases hu : usableRate st with _ | lr
          · rw [compute_noConv dateMs fmt now st b hj h0 hpd hd' hu]
            exact ⟨Or.inl rfl, Or.inr ⟨rfl, h1⟩⟩
          · rw [compute_conv dateMs fmt now st b lr hj h0 hpd hd' hu]
            exact ⟨Or.inl rfl, Or.inr ⟨rfl, h1⟩⟩

end DailySpend
